import Mathlib

/-! Metal binding headers of polyred.

The repository consists of three C headers that declare the foreign-function
surface over Apple's Metal and Core Animation frameworks:

* `internal/driver/mtl/mtl.h`
* `internal/driver/mtl/coreanim.h`
* `app/internal/mtl/mtl.h`

The headers contain declarations only, so the embedding is the declarations
themselves: C types, typedefs, struct definitions and function prototypes are
Lean data, written down line by line from the headers, and the properties are
statements about that data.
-/

namespace Mtl

/-! ## C declarations -/

/-- C type expressions as they occur in the headers.  `named` is an identifier
that is used as a type (`uint_t`, `size_t`, `bool`, ...). -/
inductive CType where
  | void
  | char
  | int
  | double
  | unsignedChar
  | unsignedShort
  | unsignedLong
  | unsignedLongLong
  | named (n : String)
  | structT (n : String)
  | const (t : CType)
  | ptr (t : CType)
  deriving DecidableEq, Repr

/-- One `typedef <type> <name>;` line. -/
structure Typedef where
  type : CType
  name : String
  deriving DecidableEq, Repr

/-- A struct member, or a function parameter: a type and a name. -/
structure Field where
  type : CType
  name : String
  deriving DecidableEq, Repr

/-- One `struct <name> { ... };` definition. -/
structure StructDecl where
  name : String
  fields : List Field
  deriving DecidableEq, Repr

/-- One function prototype. -/
structure FuncDecl where
  ret : CType
  name : String
  params : List Field
  deriving DecidableEq, Repr

/-- A header file: its `#include`s, typedefs, struct definitions and function
prototypes, each list in the order of the file. -/
structure Header where
  includes : List String
  typedefs : List Typedef
  structs : List StructDecl
  funcs : List FuncDecl
  deriving DecidableEq, Repr

/-- The type `void *`. -/
abbrev voidPtr : CType := .ptr .void

/-- The type `const char *`. -/
abbrev constCharPtr : CType := .ptr (.const .char)

/-- The type `const void *`. -/
abbrev constVoidPtr : CType := .ptr (.const .void)

/-- The type `uint_t`. -/
abbrev uint_t : CType := .named "uint_t"

/-- The type `uint8_t`. -/
abbrev uint8_t : CType := .named "uint8_t"

/-- The type `uint16_t`. -/
abbrev uint16_t : CType := .named "uint16_t"

/-- The type `uint64_t`. -/
abbrev uint64_t : CType := .named "uint64_t"

/-- The type `size_t`. -/
abbrev size_t : CType := .named "size_t"

/-- The type `bool` of `stdbool.h`. -/
abbrev cbool : CType := .named "bool"

/-! ## Struct definitions of `internal/driver/mtl/mtl.h` -/

/-- Definition of `struct Device`. -/
def structDevice : StructDecl :=
  { name := "Device"
    fields :=
      [ ⟨voidPtr, "Device"⟩
      , ⟨cbool, "Headless"⟩
      , ⟨cbool, "LowPower"⟩
      , ⟨cbool, "Removable"⟩
      , ⟨uint64_t, "RegistryID"⟩
      , ⟨constCharPtr, "Name"⟩ ] }

/-- Definition of `struct TextureDescriptor`. -/
def structTextureDescriptor : StructDecl :=
  { name := "TextureDescriptor"
    fields :=
      [ ⟨uint16_t, "PixelFormat"⟩
      , ⟨uint_t, "Width"⟩
      , ⟨uint_t, "Height"⟩
      , ⟨uint8_t, "StorageMode"⟩ ] }

/-- Definition of `struct Origin`. -/
def structOrigin : StructDecl :=
  { name := "Origin"
    fields := [ ⟨uint_t, "X"⟩, ⟨uint_t, "Y"⟩, ⟨uint_t, "Z"⟩ ] }

/-- Definition of `struct Size`. -/
def structSize : StructDecl :=
  { name := "Size"
    fields := [ ⟨uint_t, "Width"⟩, ⟨uint_t, "Height"⟩, ⟨uint_t, "Depth"⟩ ] }

/-- Definition of `struct Region`. -/
def structRegion : StructDecl :=
  { name := "Region"
    fields := [ ⟨.structT "Origin", "Origin"⟩, ⟨.structT "Size", "Size"⟩ ] }

/-- Definition of `struct Library`. -/
def structLibrary : StructDecl :=
  { name := "Library"
    fields := [ ⟨voidPtr, "Library"⟩, ⟨constCharPtr, "Error"⟩ ] }

/-- Definition of `struct CompileOption`. -/
def structCompileOption : StructDecl :=
  { name := "CompileOption"
    fields := [ ⟨uint_t, "languageVersion"⟩ ] }

/-- Definition of `struct ComputePipelineState`. -/
def structComputePipelineState : StructDecl :=
  { name := "ComputePipelineState"
    fields := [ ⟨voidPtr, "ComputePipelineState"⟩, ⟨constCharPtr, "Error"⟩ ] }

/-- The parameter list of `BlitCommandEncoder_CopyFromTexture` in the driver header. -/
def copyFromTextureParams : List Field :=
  [ ⟨voidPtr, "blitCommandEncoder"⟩
  , ⟨voidPtr, "srcTexture"⟩, ⟨uint_t, "srcSlice"⟩, ⟨uint_t, "srcLevel"⟩
  , ⟨.structT "Origin", "srcOrigin"⟩, ⟨.structT "Size", "srcSize"⟩
  , ⟨voidPtr, "dstTexture"⟩, ⟨uint_t, "dstSlice"⟩, ⟨uint_t, "dstLevel"⟩
  , ⟨.structT "Origin", "dstOrigin"⟩ ]

/-- The parameter list of `Texture_ReplaceRegion` in the driver header. -/
def replaceRegionParams : List Field :=
  [ ⟨voidPtr, "texture"⟩, ⟨.structT "Region", "region"⟩, ⟨uint_t, "level"⟩
  , ⟨voidPtr, "pixelBytes"⟩, ⟨size_t, "bytesPerRow"⟩ ]

/-! ## `internal/driver/mtl/mtl.h` -/

/-- The header `internal/driver/mtl/mtl.h`. -/
def driverMtl : Header :=
  { includes := ["stdlib.h", "stdbool.h"]
    typedefs :=
      [ ⟨.unsignedLong, "uint_t"⟩
      , ⟨.unsignedChar, "uint8_t"⟩
      , ⟨.unsignedShort, "uint16_t"⟩
      , ⟨.unsignedLongLong, "uint64_t"⟩ ]
    structs :=
      [ structDevice, structTextureDescriptor, structOrigin, structSize, structRegion
      , structLibrary, structCompileOption, structComputePipelineState ]
    funcs :=
      [ ⟨.structT "Device", "CreateSystemDefaultDevice", []⟩
      -- CommandQueue
      , ⟨voidPtr, "Device_MakeCommandQueue", [⟨voidPtr, "device"⟩]⟩
      , ⟨voidPtr, "CommandQueue_MakeCommandBuffer", [⟨voidPtr, "commandQueue"⟩]⟩
      , ⟨.void, "CommandQueue_Release", [⟨voidPtr, "commandQueue"⟩]⟩
      -- CommandEncoder, BlitCommandEncoder, ComputeCommandEncoder
      , ⟨.void, "CommandEncoder_EndEncoding", [⟨voidPtr, "commandEncoder"⟩]⟩
      , ⟨voidPtr, "CommandBuffer_MakeBlitCommandEncoder", [⟨voidPtr, "commandBuffer"⟩]⟩
      , ⟨voidPtr, "CommandBuffer_MakeComputeCommandEncoder", [⟨voidPtr, "commandBuffer"⟩]⟩
      , ⟨.void, "ComputeCommandEncoder_SetComputePipelineState",
          [⟨voidPtr, "computeCommandEncoder"⟩, ⟨voidPtr, "computePipelineState"⟩]⟩
      , ⟨.void, "ComputeCommandEncoder_SetBytes",
          [⟨voidPtr, "computeCommandEncoder"⟩, ⟨voidPtr, "bytes"⟩, ⟨.int, "length"⟩, ⟨.int, "index"⟩]⟩
      , ⟨.void, "ComputeCommandEncoder_SetBuffer",
          [⟨voidPtr, "computeCommandEncoder"⟩, ⟨voidPtr, "buffer"⟩, ⟨.int, "offset"⟩, ⟨.int, "index"⟩]⟩
      , ⟨.void, "ComputeCommandEncoder_DispatchThreads",
          [⟨voidPtr, "computeCommandEncoder"⟩, ⟨.structT "Size", "threadsPerGrid"⟩
          , ⟨.structT "Size", "threadsPerThreadgroup"⟩]⟩
      , ⟨.void, "BlitCommandEncoder_CopyFromTexture", copyFromTextureParams⟩
      , ⟨.void, "BlitCommandEncoder_Release", [⟨voidPtr, "blitCommandEncoder"⟩]⟩
      -- CommandBuffer
      , ⟨.void, "CommandBuffer_PresentDrawable", [⟨voidPtr, "commandBuffer"⟩, ⟨voidPtr, "drawable"⟩]⟩
      , ⟨.void, "CommandBuffer_WaitUntilCompleted", [⟨voidPtr, "commandBuffer"⟩]⟩
      , ⟨.void, "CommandBuffer_Commit", [⟨voidPtr, "commandBuffer"⟩]⟩
      , ⟨.void, "CommandBuffer_AddCompletedHandler", [⟨voidPtr, "commandBuffer"⟩]⟩
      , ⟨.void, "CommandBuffer_Release", [⟨voidPtr, "commandBuffer"⟩]⟩
      -- MTLTexture
      , ⟨voidPtr, "Device_MakeTexture", [⟨voidPtr, "device"⟩, ⟨.structT "TextureDescriptor", "descriptor"⟩]⟩
      , ⟨.int, "MTLTexture_GetWidth", [⟨voidPtr, "texture"⟩]⟩
      , ⟨.int, "MTLTexture_GetHeight", [⟨voidPtr, "texture"⟩]⟩
      , ⟨.void, "Texture_ReplaceRegion", replaceRegionParams⟩
      , ⟨.void, "Texture_Release", [⟨voidPtr, "texture"⟩]⟩
      , ⟨voidPtr, "Device_MakeBuffer",
          [⟨voidPtr, "device"⟩, ⟨constVoidPtr, "bytes"⟩, ⟨size_t, "length"⟩, ⟨uint16_t, "options"⟩]⟩
      , ⟨voidPtr, "Buffer_Content", [⟨voidPtr, "buffer"⟩]⟩
      , ⟨.void, "Buffer_Release", [⟨voidPtr, "buffer"⟩]⟩
      , ⟨.structT "Library", "Device_MakeLibrary",
          [⟨voidPtr, "device"⟩, ⟨constCharPtr, "source"⟩, ⟨.structT "CompileOption", "opt"⟩]⟩
      , ⟨voidPtr, "Library_MakeFunction", [⟨voidPtr, "library"⟩, ⟨constCharPtr, "name"⟩]⟩
      , ⟨.structT "ComputePipelineState", "Device_MakeComputePipelineState",
          [⟨voidPtr, "device"⟩, ⟨voidPtr, "function"⟩]⟩
      , ⟨.int, "ComputePipelineState_ThreadExecutionWidth", [⟨voidPtr, "cps"⟩]⟩
      , ⟨.int, "ComputePipelineState_MaxTotalThreadsPerThreadgroup", [⟨voidPtr, "cps"⟩]⟩ ] }

/-! ## `internal/driver/mtl/coreanim.h` -/

/-- The header `internal/driver/mtl/coreanim.h`. -/
def coreanim : Header :=
  { includes := []
    typedefs := [ ⟨.unsignedLong, "uint_t"⟩, ⟨.unsignedShort, "uint16_t"⟩ ]
    structs := []
    funcs :=
      [ ⟨voidPtr, "Window_ContentView", [⟨voidPtr, "window"⟩]⟩
      , ⟨.void, "View_SetLayer", [⟨voidPtr, "view"⟩, ⟨voidPtr, "layer"⟩]⟩
      , ⟨.void, "View_SetWantsLayer", [⟨voidPtr, "view"⟩, ⟨cbool, "wantsLayer"⟩]⟩
      , ⟨voidPtr, "MakeMetalLayer", []⟩
      , ⟨uint16_t, "MetalLayer_PixelFormat", [⟨voidPtr, "metalLayer"⟩]⟩
      , ⟨.void, "MetalLayer_SetDevice", [⟨voidPtr, "metalLayer"⟩, ⟨voidPtr, "device"⟩]⟩
      , ⟨constCharPtr, "MetalLayer_SetPixelFormat", [⟨voidPtr, "metalLayer"⟩, ⟨uint16_t, "pixelFormat"⟩]⟩
      , ⟨constCharPtr, "MetalLayer_SetMaximumDrawableCount",
          [⟨voidPtr, "metalLayer"⟩, ⟨uint_t, "maximumDrawableCount"⟩]⟩
      , ⟨.void, "MetalLayer_SetDisplaySyncEnabled", [⟨voidPtr, "metalLayer"⟩, ⟨cbool, "displaySyncEnabled"⟩]⟩
      , ⟨.void, "MetalLayer_SetDrawableSize",
          [⟨voidPtr, "metalLayer"⟩, ⟨.double, "width"⟩, ⟨.double, "height"⟩]⟩
      , ⟨voidPtr, "MetalLayer_NextDrawable", [⟨voidPtr, "metalLayer"⟩]⟩
      , ⟨voidPtr, "MetalDrawable_Texture", [⟨voidPtr, "drawable"⟩]⟩ ] }

/-! ## `app/internal/mtl/mtl.h` -/

/-- The header `app/internal/mtl/mtl.h`, written out from its own text. -/
def appMtl : Header :=
  { includes := ["stdbool.h"]
    typedefs :=
      [ ⟨.unsignedLong, "uint_t"⟩
      , ⟨.unsignedChar, "uint8_t"⟩
      , ⟨.unsignedShort, "uint16_t"⟩
      , ⟨.unsignedLongLong, "uint64_t"⟩ ]
    structs :=
      [ { name := "Device"
          fields :=
            [ ⟨.ptr .void, "Device"⟩
            , ⟨.named "bool", "Headless"⟩
            , ⟨.named "bool", "LowPower"⟩
            , ⟨.named "bool", "Removable"⟩
            , ⟨.named "uint64_t", "RegistryID"⟩
            , ⟨.ptr (.const .char), "Name"⟩ ] }
      , { name := "TextureDescriptor"
          fields :=
            [ ⟨.named "uint16_t", "PixelFormat"⟩
            , ⟨.named "uint_t", "Width"⟩
            , ⟨.named "uint_t", "Height"⟩
            , ⟨.named "uint8_t", "StorageMode"⟩ ] }
      , { name := "Origin"
          fields := [ ⟨.named "uint_t", "X"⟩, ⟨.named "uint_t", "Y"⟩, ⟨.named "uint_t", "Z"⟩ ] }
      , { name := "Size"
          fields :=
            [ ⟨.named "uint_t", "Width"⟩, ⟨.named "uint_t", "Height"⟩, ⟨.named "uint_t", "Depth"⟩ ] }
      , { name := "Region"
          fields := [ ⟨.structT "Origin", "Origin"⟩, ⟨.structT "Size", "Size"⟩ ] } ]
    funcs :=
      [ ⟨.structT "Device", "CreateSystemDefaultDevice", []⟩
      , ⟨.ptr .void, "CommandQueue_MakeCommandBuffer", [⟨.ptr .void, "commandQueue"⟩]⟩
      , ⟨.void, "CommandEncoder_EndEncoding", [⟨.ptr .void, "commandEncoder"⟩]⟩
      , ⟨.ptr .void, "CommandBuffer_MakeBlitCommandEncoder", [⟨.ptr .void, "commandBuffer"⟩]⟩
      , ⟨.void, "BlitCommandEncoder_CopyFromTexture",
          [ ⟨.ptr .void, "blitCommandEncoder"⟩
          , ⟨.ptr .void, "srcTexture"⟩, ⟨.named "uint_t", "srcSlice"⟩, ⟨.named "uint_t", "srcLevel"⟩
          , ⟨.structT "Origin", "srcOrigin"⟩, ⟨.structT "Size", "srcSize"⟩
          , ⟨.ptr .void, "dstTexture"⟩, ⟨.named "uint_t", "dstSlice"⟩, ⟨.named "uint_t", "dstLevel"⟩
          , ⟨.structT "Origin", "dstOrigin"⟩ ]⟩
      , ⟨.void, "CommandBuffer_PresentDrawable", [⟨.ptr .void, "commandBuffer"⟩, ⟨.ptr .void, "drawable"⟩]⟩
      , ⟨.void, "CommandBuffer_WaitUntilCompleted", [⟨.ptr .void, "commandBuffer"⟩]⟩
      , ⟨.void, "CommandBuffer_Commit", [⟨.ptr .void, "commandBuffer"⟩]⟩
      , ⟨.void, "CommandBuffer_AddCompletedHandler", [⟨.ptr .void, "commandBuffer"⟩]⟩
      , ⟨.ptr .void, "Device_MakeTexture",
          [⟨.ptr .void, "device"⟩, ⟨.structT "TextureDescriptor", "descriptor"⟩]⟩
      , ⟨.int, "MTLTexture_GetWidth", [⟨.ptr .void, "texture"⟩]⟩
      , ⟨.int, "MTLTexture_GetHeight", [⟨.ptr .void, "texture"⟩]⟩
      , ⟨.void, "Texture_ReplaceRegion",
          [ ⟨.ptr .void, "texture"⟩, ⟨.structT "Region", "region"⟩, ⟨.named "uint_t", "level"⟩
          , ⟨.ptr .void, "pixelBytes"⟩, ⟨.named "size_t", "bytesPerRow"⟩ ]⟩
      , ⟨.ptr .void, "Device_MakeCommandQueue", [⟨.ptr .void, "device"⟩]⟩ ] }

/-- The headers of the repository. -/
def headers : List Header := [driverMtl, coreanim, appMtl]

/-- The struct definition named `n` among `structs`, if there is one. -/
def findStruct (structs : List StructDecl) (n : String) : Option StructDecl :=
  structs.find? (fun s => s.name == n)

/-- A struct has a member called `Error`. -/
def hasErrorField (s : StructDecl) : Bool :=
  s.fields.any (fun fl => fl.name == "Error")

/-- The result of `f` carries an error string: the return type is
`const char *`, or it is a struct (defined in `structs`) with an `Error`
member. -/
def carriesError (structs : List StructDecl) (f : FuncDecl) : Bool :=
  match f.ret with
  | .ptr (.const .char) => true
  | .structT n =>
      match findStruct structs n with
      | some s => hasErrorField s
      | none => false
  | _ => false

/-- Names of the functions the specification says report errors. -/
def specErrorFunctions : List String :=
  ["Device_MakeLibrary", "Device_MakeComputePipelineState"]

/-- Names of the functions of `coreanim.h` that return `const char *`. -/
def layerErrorFunctions : List String :=
  ["MetalLayer_SetPixelFormat", "MetalLayer_SetMaximumDrawableCount"]

/-! ## Descriptor structs -/

/-- Names of the plain-old-data descriptor structs. -/
def podNames : List String :=
  ["TextureDescriptor", "Origin", "Size", "Region", "CompileOption"]

/-- The type expression `t` mentions a descriptor struct, at any depth of
pointer or `const`. -/
def mentionsPod : CType → Bool
  | .structT n => podNames.contains n
  | .const t => mentionsPod t
  | .ptr t => mentionsPod t
  | _ => false

/-- The type `t` is a descriptor struct itself, passed by value. -/
def isPodByValue : CType → Bool
  | .structT n => podNames.contains n
  | _ => false

/-- The type `t` holds a descriptor struct: it mentions one, or it is a struct
one of whose members (followed through at most `fuel` nested struct
definitions) does. -/
def holdsPod (structs : List StructDecl) : Nat → CType → Bool
  | 0, t => mentionsPod t
  | fuel + 1, t =>
      mentionsPod t ||
        (match t with
         | .structT n =>
             match findStruct structs n with
             | some s => s.fields.any (fun fl => holdsPod structs fuel fl.type)
             | none => false
         | _ => false)

/-- Descriptor structs occur in the prototype `f` only as by-value parameters:
each parameter that mentions one is exactly that struct, and the return type
holds none. -/
def podOnlyByValue (structs : List StructDecl) (f : FuncDecl) : Bool :=
  f.params.all (fun p => !mentionsPod p.type || isPodByValue p.type) &&
    !holdsPod structs structs.length f.ret

/-! ## Object groups -/

/-- Every typedef, struct definition and function prototype of `a` is declared
identically in `b`: it occurs in `b`, and whatever `b` declares under the same
name is that very declaration. -/
def subInterface (a b : Header) : Prop :=
  (∀ t ∈ a.typedefs, t ∈ b.typedefs ∧ ∀ u ∈ b.typedefs, u.name = t.name → u = t) ∧
    (∀ s ∈ a.structs, s ∈ b.structs ∧ ∀ u ∈ b.structs, u.name = s.name → u = s) ∧
    (∀ f ∈ a.funcs, f ∈ b.funcs ∧ ∀ g ∈ b.funcs, g.name = f.name → g = f)

/-! ## Integer types and their ranges -/

/-- Widths in bits of the integer types the headers use.  The headers leave
them to the platform. -/
structure ABI where
  charBits : Nat
  shortBits : Nat
  intBits : Nat
  longBits : Nat
  longLongBits : Nat
  deriving DecidableEq, Repr

/-- The LP64 data model of 64-bit Darwin, the platform the headers are built
for (`+build darwin` in `coreanim.h`). -/
def darwin64 : ABI :=
  { charBits := 8, shortBits := 16, intBits := 32, longBits := 64, longLongBits := 64 }

/-- Replace a typedef name by the type the header `h` defines it as. -/
def resolveType (h : Header) : CType → CType
  | .named n =>
      match h.typedefs.find? (fun td => td.name == n) with
      | some td => td.type
      | none => .named n
  | t => t

/-- Least and greatest value of an integer type. -/
def typeRange (abi : ABI) : CType → Option (Int × Int)
  | .int => some (-Int.ofNat (2 ^ (abi.intBits - 1)), Int.ofNat (2 ^ (abi.intBits - 1)) - 1)
  | .unsignedChar => some (0, Int.ofNat (2 ^ abi.charBits) - 1)
  | .unsignedShort => some (0, Int.ofNat (2 ^ abi.shortBits) - 1)
  | .unsignedLong => some (0, Int.ofNat (2 ^ abi.longBits) - 1)
  | .unsignedLongLong => some (0, Int.ofNat (2 ^ abi.longLongBits) - 1)
  | _ => none

/-- The declared type of member `fld` of `struct s` in the header `h`. -/
def fieldType (h : Header) (s fld : String) : Option CType :=
  (findStruct h.structs s).bind
    (fun sd => (sd.fields.find? (fun fl => fl.name == fld)).map Field.type)

/-- The declared return type of the function `fn` in the header `h`. -/
def returnType (h : Header) (fn : String) : Option CType :=
  (h.funcs.find? (fun f => f.name == fn)).map FuncDecl.ret

/-- The value `v` lies in the range of the integer type `t` (declared in `h`). -/
def representable (abi : ABI) (h : Header) (t : Option CType) (v : Int) : Bool :=
  match t.bind (fun ty => typeRange abi (resolveType h ty)) with
  | some (lo, hi) => decide (lo ≤ v) && decide (v ≤ hi)
  | none => false

/-- The C conversion of the value `v` to the integer type `t`: reduction modulo
the number of values of the type (two's complement for `int`). -/
def convertTo (abi : ABI) (h : Header) (t : Option CType) (v : Int) : Option Int :=
  match t.bind (fun ty => typeRange abi (resolveType h ty)) with
  | some (lo, hi) => some (lo + (v - lo) % (hi - lo + 1))
  | none => none

/-- A value of `struct TextureDescriptor`. -/
structure TextureDescriptor where
  PixelFormat : Int
  Width : Int
  Height : Int
  StorageMode : Int
  deriving DecidableEq, Repr

/-- Each member of the descriptor lies in the range of its declared type. -/
def TextureDescriptor.valid (abi : ABI) (h : Header) (d : TextureDescriptor) : Bool :=
  representable abi h (fieldType h "TextureDescriptor" "PixelFormat") d.PixelFormat &&
    representable abi h (fieldType h "TextureDescriptor" "Width") d.Width &&
    representable abi h (fieldType h "TextureDescriptor" "Height") d.Height &&
    representable abi h (fieldType h "TextureDescriptor" "StorageMode") d.StorageMode

/-- The greatest value of `int`. -/
def INT_MAX (abi : ABI) : Int := Int.ofNat (2 ^ (abi.intBits - 1)) - 1

/-! ## Error reporting (C1) -/

/-- C1, refuted as stated: `MetalLayer_SetPixelFormat` is declared in
`coreanim.h`, its return type is the error string `const char *`, and it is
neither `Device_MakeLibrary` nor `Device_MakeComputePipelineState`. -/
theorem error_results_counterexample :
    (⟨.ptr (.const .char), "MetalLayer_SetPixelFormat",
        [⟨.ptr .void, "metalLayer"⟩, ⟨.named "uint16_t", "pixelFormat"⟩]⟩ : FuncDecl)
        ∈ coreanim.funcs ∧
      coreanim ∈ headers ∧
      carriesError coreanim.structs
        ⟨.ptr (.const .char), "MetalLayer_SetPixelFormat",
          [⟨.ptr .void, "metalLayer"⟩, ⟨.named "uint16_t", "pixelFormat"⟩]⟩ = true ∧
      "MetalLayer_SetPixelFormat" ∉ specErrorFunctions := by
  decide

/-- C1, amended: across every function declared in the headers, the result
carries an error string (return type `const char *`, or a struct with an
`Error` member) exactly for `Device_MakeLibrary`,
`Device_MakeComputePipelineState`, `MetalLayer_SetPixelFormat` and
`MetalLayer_SetMaximumDrawableCount`. -/
theorem error_results_exact (h : Header) (hh : h ∈ headers) (f : FuncDecl)
    (hf : f ∈ h.funcs) :
    carriesError h.structs f = true ↔
      f.name ∈ specErrorFunctions ∨ f.name ∈ layerErrorFunctions := by
  have key : ∀ h ∈ headers, ∀ f ∈ h.funcs,
      (carriesError h.structs f = true ↔
        f.name ∈ specErrorFunctions ∨ f.name ∈ layerErrorFunctions) := by
    decide
  exact key h hh f hf

/-- C1, amended, at `Device_MakeLibrary` of the driver header: it is declared
there and its result, a `struct Library`, carries an error string. -/
theorem error_results_exact_witness :
    driverMtl ∈ headers ∧
      (⟨.structT "Library", "Device_MakeLibrary",
          [⟨.ptr .void, "device"⟩, ⟨.ptr (.const .char), "source"⟩,
            ⟨.structT "CompileOption", "opt"⟩]⟩ : FuncDecl) ∈ driverMtl.funcs ∧
      carriesError driverMtl.structs
        ⟨.structT "Library", "Device_MakeLibrary",
          [⟨.ptr .void, "device"⟩, ⟨.ptr (.const .char), "source"⟩,
            ⟨.structT "CompileOption", "opt"⟩]⟩ = true :=
  ⟨by decide, by decide,
    (error_results_exact driverMtl (by decide) _ (by decide)).mpr (by decide)⟩

/-! ## Descriptor structs are passed by value (C3) -/

/-- C3: in every function declared in the headers, a parameter whose type
mentions `TextureDescriptor`, `Origin`, `Size`, `Region` or `CompileOption` is
that struct itself, by value (never a pointer to it), and the return type
neither is one of them, nor points to one, nor is a struct holding one.  Each
of the five does occur as a by-value parameter of some declared function. -/
theorem pod_only_by_value :
    (∀ h ∈ headers, ∀ f ∈ h.funcs,
        (∀ p ∈ f.params, mentionsPod p.type = true → isPodByValue p.type = true) ∧
          holdsPod h.structs h.structs.length f.ret = false) ∧
      (∀ n ∈ podNames, ∃ h ∈ headers, ∃ f ∈ h.funcs, ∃ p ∈ f.params,
        p.type = .structT n) := by
  decide

/-! ## The app header is part of the driver header (C5) -/

/-- C5: every typedef, struct definition (`Device`, `TextureDescriptor`,
`Origin`, `Size`, `Region`, members in order with their types) and function
prototype (name, return type, parameters in order) of
`app/internal/mtl/mtl.h` is declared identically in
`internal/driver/mtl/mtl.h`. -/
theorem app_subInterface_driver :
    subInterface appMtl driverMtl ∧
      appMtl.structs.map StructDecl.name =
        ["Device", "TextureDescriptor", "Origin", "Size", "Region"] ∧
      appMtl.funcs.length = 14 := by
  unfold subInterface
  decide

/-! ## Object groups (C4) -/

/-- Ranges of the types involved, for either `mtl.h` header: the member
`Width`/`Height` is a `uint_t`, that is an `unsigned long`, and the two getters
return `int`. -/
theorem dims_types (abi : ABI) (h : Header) (hh : h = driverMtl ∨ h = appMtl) :
    (fieldType h "TextureDescriptor" "Width").bind
        (fun ty => typeRange abi (resolveType h ty))
        = some (0, Int.ofNat (2 ^ abi.longBits) - 1) ∧
      (fieldType h "TextureDescriptor" "Height").bind
        (fun ty => typeRange abi (resolveType h ty))
        = some (0, Int.ofNat (2 ^ abi.longBits) - 1) ∧
      (returnType h "MTLTexture_GetWidth").bind
        (fun ty => typeRange abi (resolveType h ty))
        = some (-Int.ofNat (2 ^ (abi.intBits - 1)), Int.ofNat (2 ^ (abi.intBits - 1)) - 1) ∧
      (returnType h "MTLTexture_GetHeight").bind
        (fun ty => typeRange abi (resolveType h ty))
        = some (-Int.ofNat (2 ^ (abi.intBits - 1)), Int.ofNat (2 ^ (abi.intBits - 1)) - 1) := by
  rcases hh with rfl | rfl <;> exact ⟨rfl, rfl, rfl, rfl⟩

/-- A value between `0` and `INT_MAX` is in the range of `int` and converts to
itself. -/
theorem int_range_iff (P v : Int) (hP : 0 ≤ P) (hv : 0 ≤ v) :
    ((decide (-P ≤ v) && decide (v ≤ P - 1)) = true ↔ v ≤ P - 1) ∧
      (v ≤ P - 1 → -P + (v - -P) % (P - 1 - -P + 1) = v) := by
  refine ⟨?_, ?_⟩
  · simp only [Bool.and_eq_true, decide_eq_true_eq]
    omega
  · intro hle
    have h1 : (v - -P) % (P - 1 - -P + 1) = v - -P := by
      apply Int.emod_eq_of_lt <;> omega
    rw [h1]
    omega

/-- C6, refuted as stated: on 64-bit Darwin the descriptor with `Width = 2^31`
is a value of `struct TextureDescriptor` (each member within its declared
type), yet its `Width` is outside the range of `int`, the return type of
`MTLTexture_GetWidth`; converted to `int` it becomes `-2^31`. -/
theorem texture_dims_counterexample :
    TextureDescriptor.valid darwin64 driverMtl
        { PixelFormat := 80, Width := 2147483648, Height := 1, StorageMode := 0 } = true ∧
      representable darwin64 driverMtl (returnType driverMtl "MTLTexture_GetWidth")
        2147483648 = false ∧
      convertTo darwin64 driverMtl (returnType driverMtl "MTLTexture_GetWidth") 2147483648
        = some (-2147483648) := by
  decide

/-- C6, amended: for every `TextureDescriptor` value (of either `mtl.h` header,
on any platform), `Width` is representable in `int`, the return type of
`MTLTexture_GetWidth`, exactly when it is at most `INT_MAX`, and then the
conversion to `int` leaves it unchanged; likewise `Height` and
`MTLTexture_GetHeight`. -/
theorem texture_dims_representable (abi : ABI) (h : Header)
    (hh : h = driverMtl ∨ h = appMtl) (d : TextureDescriptor)
    (hv : d.valid abi h = true) :
    (representable abi h (returnType h "MTLTexture_GetWidth") d.Width = true ↔
        d.Width ≤ INT_MAX abi) ∧
      (representable abi h (returnType h "MTLTexture_GetHeight") d.Height = true ↔
        d.Height ≤ INT_MAX abi) ∧
      (d.Width ≤ INT_MAX abi →
        convertTo abi h (returnType h "MTLTexture_GetWidth") d.Width = some d.Width) ∧
      (d.Height ≤ INT_MAX abi →
        convertTo abi h (returnType h "MTLTexture_GetHeight") d.Height = some d.Height) := by
  obtain ⟨tw, th, rw_, rh⟩ := dims_types abi h hh
  have hP : (0 : Int) ≤ Int.ofNat (2 ^ (abi.intBits - 1)) := Int.ofNat_nonneg _
  simp only [TextureDescriptor.valid, representable, tw, th, Bool.and_eq_true,
    decide_eq_true_eq] at hv
  obtain ⟨⟨⟨_, hw0, _⟩, hh0, _⟩, _⟩ := hv
  have kw := int_range_iff _ d.Width hP hw0
  have kh := int_range_iff _ d.Height hP hh0
  simp only [representable, convertTo, rw_, rh, INT_MAX]
  exact ⟨kw.1, kh.1, fun hle => congrArg some (kw.2 hle), fun hle => congrArg some (kh.2 hle)⟩

/-- C6, amended, at a 1920 by 1080 descriptor on 64-bit Darwin: it is a value
of `struct TextureDescriptor`, and both dimensions convert to `int`
unchanged. -/
theorem texture_dims_representable_witness :
    TextureDescriptor.valid darwin64 driverMtl
        { PixelFormat := 80, Width := 1920, Height := 1080, StorageMode := 0 } = true ∧
      convertTo darwin64 driverMtl (returnType driverMtl "MTLTexture_GetWidth") 1920
        = some 1920 ∧
      convertTo darwin64 driverMtl (returnType driverMtl "MTLTexture_GetHeight") 1080
        = some 1080 :=
  ⟨by decide,
    (texture_dims_representable darwin64 driverMtl (Or.inl rfl)
      { PixelFormat := 80, Width := 1920, Height := 1080, StorageMode := 0 }
      (by decide)).2.2.1 (by decide),
    (texture_dims_representable darwin64 driverMtl (Or.inl rfl)
      { PixelFormat := 80, Width := 1920, Height := 1080, StorageMode := 0 }
      (by decide)).2.2.2 (by decide)⟩

end Mtl
